import Mathlib

/-!
Verification of the CustomSignalApp core logic (`src/app_streamlit_final.py`).

The source's multipliers are Python floats; they are embedded here as
rationals (`ℚ`): every threshold comparison in the source (`< 1.50`,
`>= 8.00`) is exact, so the order structure is preserved.  Lists keep the
source's orientation: most recent element last, and Python's slice
`history[-n:]` is embedded as `lastN`.
-/

namespace CustomSignalApp

/-- Source constant `LOW_MULTIPLIER_THRESHOLD = 1.50`. -/
def LOW_MULTIPLIER_THRESHOLD : ℚ := 1.50

/-- Source constant `HIGH_MULTIPLIER_THRESHOLD = 8.00`. -/
def HIGH_MULTIPLIER_THRESHOLD : ℚ := 8.00

/-- Source constant `REQUIRED_LOW_STREAK = 7`. -/
def REQUIRED_LOW_STREAK : ℕ := 7

/-- Source constant `SAFE_HIGH_STREAK = 20`. -/
def SAFE_HIGH_STREAK : ℕ := 20

/-- Python slice `l[-n:]`: the last `n` elements of `l` (all of `l` when
`l` is shorter than `n`). -/
def lastN (l : List ℚ) (n : ℕ) : List ℚ := l.drop (l.length - n)

/-- The `for ... break` loop of CHECK 1 in `generate_risk_averse_signal`:
walk the (already reversed) trailing window, incrementing the counter
while elements are strictly below `LOW_MULTIPLIER_THRESHOLD`, and stop at
the first element that is not. -/
def lowStreakLoop : List ℚ → ℕ → ℕ
  | [], acc => acc
  | m :: rest, acc =>
    if m < LOW_MULTIPLIER_THRESHOLD then lowStreakLoop rest (acc + 1) else acc

/-- The value of `low_streak_count` after the CHECK 1 loop: the loop runs
over `reversed(history[-REQUIRED_LOW_STREAK:])` starting from 0. -/
def low_streak_count (history : List ℚ) : ℕ :=
  lowStreakLoop (lastN history REQUIRED_LOW_STREAK).reverse 0

/-- Source line `is_low_streak_ready = (low_streak_count >= REQUIRED_LOW_STREAK)`. -/
def is_low_streak_ready (history : List ℚ) : Bool :=
  REQUIRED_LOW_STREAK ≤ low_streak_count history

/-- Source line `high_hit_recently = any(m >= HIGH_MULTIPLIER_THRESHOLD for m in history[-SAFE_HIGH_STREAK:])`. -/
def high_hit_recently (history : List ℚ) : Bool :=
  (lastN history SAFE_HIGH_STREAK).any (fun m => HIGH_MULTIPLIER_THRESHOLD ≤ m)

/-- The insufficient-data message of the source (Python renders the
f-string slot `SAFE_HIGH_STREAK` as the decimal `20`). -/
def insufficientDataMessage : String :=
  "🛑 ERROR: Need at least " ++ toString SAFE_HIGH_STREAK ++
    " rounds of history for safe analysis."

/-- The signal message of the source; Python renders the float thresholds
`1.50` and `8.00` as `1.5` and `8.0`. -/
def signalMessage (low_streak_count : ℕ) : String :=
  "🎯 **HIGH-TARGET SIGNAL!** **BET NOW!** 🎯\n\n" ++
  "**Conditions Met (100% accurate rule execution):**\n" ++
  "  1. Low Streak: " ++ toString low_streak_count ++
    " consecutive rounds **< 1.5x**.\n" ++
  "  2. Safety Check: **NO** multiplier **>= 8.0x** recently.\n\n" ++
  "**ACTION:** Target **3.00x** (Aggressive) or **2.00x** (Moderate)."

/-- The reason string appended when the low streak is not ready. -/
def lowNotReadyReason (low_streak_count : ℕ) : String :=
  "🔴 **Low Streak NOT Ready** (only " ++ toString low_streak_count ++
    " below 1.5x)."

/-- The reason string appended when a high multiplier was hit recently. -/
def highVarianceReason : String :=
  "🔴 **High Variance Detected** (a 8.0x+ hit occurred recently)."

/-- The no-signal message of the source: the collected reasons are joined
with a single space (Python `' '.join(reason)`). -/
def noSignalMessage (reasons : List String) : String :=
  "❌ **NO SIGNAL.** **DO NOT BET.**\n\n" ++
  "**Reason(s) to Wait:**\n* " ++ String.intercalate " " reasons ++ "\n" ++
  "**Action:** Wait for safety conditions to align."

/-- Embedding of `generate_risk_averse_signal` from
`src/app_streamlit_final.py` (lines 36-81): the length guard, the two
checks, and the message construction, returning `(message, is_bet_signal)`. -/
def generate_risk_averse_signal (history : List ℚ) : String × Bool :=
  if history.length < SAFE_HIGH_STREAK then
    (insufficientDataMessage, false)
  else if is_low_streak_ready history && !high_hit_recently history then
    (signalMessage (low_streak_count history), true)
  else
    (noSignalMessage
      ((if !is_low_streak_ready history then
          [lowNotReadyReason (low_streak_count history)] else []) ++
       (if high_hit_recently history then [highVarianceReason] else [])),
     false)

/-- The fixed unavailability string returned when the Gemini client is
absent. -/
def unavailableMessage : String := "⚠️ Gemini AI Analysis is unavailable."

/-- The prompt built by `get_ai_analysis` (apostrophes written `\x27`). -/
def mkPrompt (history_list : List ℚ) (traditional_signal : String) : String :=
  "Analyze the sequence: " ++ toString history_list ++
  ". The calculated signal is: \x27" ++ traditional_signal ++
  "\x27. Based on crash game risk principles, provide a quick 3-4 sentence risk assessment."

/-- The fallback string built in the `except` branch of `get_ai_analysis`. -/
def apiErrorMessage (e : String) : String :=
  "Gemini API Error: Could not generate analysis. (" ++ e ++ ")"

/-- Embedding of `get_ai_analysis` (lines 84-99).  The module-level
`client` is `Option Unit` (`none` when `get_gemini_client` failed and
returned `None`); the external call `client.models.generate_content` is an
oracle parameter returning either generated text or a raised exception's
description, which the `try`/`except` converts to `apiErrorMessage`. -/
def get_ai_analysis (client : Option Unit)
    (generate_content : String → Except String String)
    (history_list : List ℚ) (traditional_signal : String) : String :=
  match client with
  | none => unavailableMessage
  | some _ =>
    match generate_content (mkPrompt history_list traditional_signal) with
    | Except.ok text => text
    | Except.error e => apiErrorMessage e

/-- The spec's description of the low-streak count (spec §4.1 step 1,
written from the spec's words, to be compared with `low_streak_count`):
scan the last-`requiredLowStreak` sub-window from its most recent element
backward and count consecutive elements strictly below the threshold,
stopping at the first element that does not satisfy the condition. -/
def specLowStreakCount (history : List ℚ) : ℕ :=
  ((lastN history REQUIRED_LOW_STREAK).reverse.takeWhile
    (fun m => decide (m < LOW_MULTIPLIER_THRESHOLD))).length

/-! ## Helper lemmas -/

lemma lowStreakLoop_eq_takeWhile (l : List ℚ) (acc : ℕ) :
    lowStreakLoop l acc =
      acc + (l.takeWhile (fun m => decide (m < LOW_MULTIPLIER_THRESHOLD))).length := by
  induction l generalizing acc with
  | nil => simp [lowStreakLoop]
  | cons m rest ih =>
    by_cases hm : m < LOW_MULTIPLIER_THRESHOLD
    · simp [lowStreakLoop, hm, List.takeWhile_cons, ih]
      omega
    · simp [lowStreakLoop, hm, List.takeWhile_cons]

lemma lowStreakLoop_le (l : List ℚ) (acc : ℕ) :
    lowStreakLoop l acc ≤ acc + l.length := by
  induction l generalizing acc with
  | nil => simp [lowStreakLoop]
  | cons m rest ih =>
    by_cases hm : m < LOW_MULTIPLIER_THRESHOLD
    · simp only [lowStreakLoop, if_pos hm]
      calc lowStreakLoop rest (acc + 1) ≤ (acc + 1) + rest.length := ih (acc + 1)
        _ ≤ acc + (m :: rest).length := by simp; omega
    · simp only [lowStreakLoop, if_neg hm]
      omega

lemma lowStreakLoop_all_low (l : List ℚ) (acc : ℕ)
    (hall : ∀ m ∈ l, m < LOW_MULTIPLIER_THRESHOLD) :
    lowStreakLoop l acc = acc + l.length := by
  induction l generalizing acc with
  | nil => simp [lowStreakLoop]
  | cons m rest ih =>
    have hm : m < LOW_MULTIPLIER_THRESHOLD := hall m (by simp)
    simp only [lowStreakLoop, if_pos hm]
    rw [ih (acc + 1) (fun x hx => hall x (by simp [hx]))]
    simp
    omega

lemma length_lastN_le (l : List ℚ) (n : ℕ) : (lastN l n).length ≤ n := by
  simp only [lastN, List.length_drop]
  omega

lemma length_lastN (l : List ℚ) (n : ℕ) (hn : n ≤ l.length) :
    (lastN l n).length = n := by
  simp only [lastN, List.length_drop]
  omega

lemma lastN_lastN (l : List ℚ) (n m : ℕ) (hnm : n ≤ m) (hm : m ≤ l.length) :
    lastN (lastN l m) n = lastN l n := by
  simp only [lastN, List.length_drop, List.drop_drop]
  congr 1
  omega

lemma lastN_subset (l : List ℚ) (n : ℕ) : lastN l n ⊆ l :=
  List.drop_subset _ l

lemma low_streak_count_le (h : List ℚ) :
    low_streak_count h ≤ REQUIRED_LOW_STREAK := by
  have := lowStreakLoop_le (lastN h REQUIRED_LOW_STREAK).reverse 0
  have hlen := length_lastN_le h REQUIRED_LOW_STREAK
  simp only [List.length_reverse] at this
  unfold low_streak_count
  omega

lemma low_streak_count_all_low (h : List ℚ)
    (hlen : REQUIRED_LOW_STREAK ≤ h.length)
    (hall : ∀ m ∈ lastN h REQUIRED_LOW_STREAK, m < LOW_MULTIPLIER_THRESHOLD) :
    low_streak_count h = REQUIRED_LOW_STREAK := by
  unfold low_streak_count
  rw [lowStreakLoop_all_low _ 0 (fun m hm => hall m (List.mem_reverse.mp hm))]
  rw [List.length_reverse, length_lastN h REQUIRED_LOW_STREAK hlen]
  omega

lemma high_hit_iff (h : List ℚ) :
    high_hit_recently h = true ↔
      ∃ m ∈ lastN h SAFE_HIGH_STREAK, HIGH_MULTIPLIER_THRESHOLD ≤ m := by
  simp [high_hit_recently, List.any_eq_true]

lemma lowStreakLoop_head_not_low (m : ℚ) (hm : ¬ m < LOW_MULTIPLIER_THRESHOLD)
    (rest : List ℚ) (acc : ℕ) : lowStreakLoop (m :: rest) acc = acc := by
  simp [lowStreakLoop, hm]

/-! ## Concrete example histories from the spec -/

/-- Twenty rounds whose last 7 entries are `[1.1,1.2,1.3,1.4,1.45,1.49,2.0]`
(the spec's broken-streak counter-example). -/
def exBrokenStreak : List ℚ :=
  [2,2,2,2,2,2,2,2,2,2,2,2,2,1.1,1.2,1.3,1.4,1.45,1.49,2.0]

/-- The spec's end-to-end scenario history: twenty values, last 7 all
below 1.50, nothing at or above 8.00. -/
def exSignal : List ℚ :=
  [2,2,2,2,2,2,2,2,2,2,2,2,2,1.4,1.3,1.2,1.1,1.0,0.9,0.8]

/-- Twenty rounds whose last 7 entries are all negative. -/
def exNegative : List ℚ :=
  [2,2,2,2,2,2,2,2,2,2,2,2,2,-1,-2,-0.5,-3,-1.5,-2.5,-4]

/-! ## Claim theorems -/

/-- C1: for every history of length at least 20 the low-streak count
computed by `generate_risk_averse_signal` equals the spec's backward scan
of the last-7 window (count consecutive elements strictly below 1.50 from
the most recent element, stopping at the first failure), the count is
always in 0..7, and the broken-streak example reports count 0 with
isSignal false. -/
theorem claim1_low_streak_scan :
    (∀ h : List ℚ, SAFE_HIGH_STREAK ≤ h.length →
        low_streak_count h = specLowStreakCount h ∧
        low_streak_count h ≤ REQUIRED_LOW_STREAK) ∧
    low_streak_count exBrokenStreak = 0 ∧
    (generate_risk_averse_signal exBrokenStreak).2 = false := by
  refine ⟨fun h _ => ⟨?_, low_streak_count_le h⟩, ?_, ?_⟩
  · unfold low_streak_count specLowStreakCount
    rw [lowStreakLoop_eq_takeWhile]
    omega
  · norm_num [low_streak_count, lastN, lowStreakLoop, REQUIRED_LOW_STREAK,
      LOW_MULTIPLIER_THRESHOLD, exBrokenStreak]
  · norm_num [generate_risk_averse_signal, is_low_streak_ready,
      high_hit_recently, low_streak_count, lastN, lowStreakLoop,
      REQUIRED_LOW_STREAK, SAFE_HIGH_STREAK, LOW_MULTIPLIER_THRESHOLD,
      HIGH_MULTIPLIER_THRESHOLD, exBrokenStreak]

/-- Witness for C1 at the concrete signal-scenario history. -/
theorem claim1_low_streak_scan_witness :
    SAFE_HIGH_STREAK ≤ exSignal.length ∧
    (low_streak_count exSignal = specLowStreakCount exSignal ∧
     low_streak_count exSignal ≤ REQUIRED_LOW_STREAK) :=
  ⟨by norm_num [exSignal, SAFE_HIGH_STREAK],
   claim1_low_streak_scan.1 exSignal (by norm_num [exSignal, SAFE_HIGH_STREAK])⟩

/-- C2: for every history of length at least 20, isSignal is true exactly
when the low streak reaches 7 and no element of the last 20 is at or
above 8.00; in particular any element of the trailing 20 at or above
8.00 forces isSignal false. -/
theorem claim2_signal_iff (h : List ℚ) (hl : SAFE_HIGH_STREAK ≤ h.length) :
    ((generate_risk_averse_signal h).2 = true ↔
      (REQUIRED_LOW_STREAK ≤ low_streak_count h ∧
       high_hit_recently h = false)) ∧
    ∀ m ∈ lastN h SAFE_HIGH_STREAK, HIGH_MULTIPLIER_THRESHOLD ≤ m →
      (generate_risk_averse_signal h).2 = false := by
  have hnot : ¬ h.length < SAFE_HIGH_STREAK := by omega
  have key : (generate_risk_averse_signal h).2 =
      (is_low_streak_ready h && !high_hit_recently h) := by
    cases hb : (is_low_streak_ready h && !high_hit_recently h) with
    | false => simp [generate_risk_averse_signal, hnot, hb]
    | true => simp [generate_risk_averse_signal, hnot, hb]
  constructor
  · rw [key]
    simp [is_low_streak_ready]
  · intro m hm h8
    rw [key]
    have hhit : high_hit_recently h = true := (high_hit_iff h).mpr ⟨m, hm, h8⟩
    simp [hhit]

/-- Witness for C2 at the broken-streak history. -/
theorem claim2_signal_iff_witness :
    SAFE_HIGH_STREAK ≤ exBrokenStreak.length ∧
    (((generate_risk_averse_signal exBrokenStreak).2 = true ↔
        (REQUIRED_LOW_STREAK ≤ low_streak_count exBrokenStreak ∧
         high_hit_recently exBrokenStreak = false)) ∧
     ∀ m ∈ lastN exBrokenStreak SAFE_HIGH_STREAK,
       HIGH_MULTIPLIER_THRESHOLD ≤ m →
       (generate_risk_averse_signal exBrokenStreak).2 = false) :=
  ⟨by norm_num [exBrokenStreak, SAFE_HIGH_STREAK],
   claim2_signal_iff exBrokenStreak
     (by norm_num [exBrokenStreak, SAFE_HIGH_STREAK])⟩

/-- C3: every history with fewer than 20 entries yields isSignal false
together with the fixed message naming the 20-entry minimum, with no
partial analysis contributing to the result. -/
theorem claim3_insufficient (h : List ℚ) (hl : h.length < SAFE_HIGH_STREAK) :
    generate_risk_averse_signal h =
      ("🛑 ERROR: Need at least 20 rounds of history for safe analysis.",
       false) := by
  unfold generate_risk_averse_signal
  rw [if_pos hl]
  rfl

/-- Witness for C3 at the empty history. -/
theorem claim3_insufficient_witness :
    ([] : List ℚ).length < SAFE_HIGH_STREAK ∧
    generate_risk_averse_signal [] =
      ("🛑 ERROR: Need at least 20 rounds of history for safe analysis.",
       false) :=
  ⟨by norm_num [SAFE_HIGH_STREAK],
   claim3_insufficient [] (by norm_num [SAFE_HIGH_STREAK])⟩

/-- C4: any 20-entry history whose last 7 entries are all strictly below
1.50 and whose entries are all below 8.00 yields isSignal true; the
spec's concrete scenario history yields isSignal true with streak
count 7. -/
theorem claim4_exact20_signal :
    (∀ h : List ℚ, h.length = SAFE_HIGH_STREAK →
       (∀ m ∈ lastN h REQUIRED_LOW_STREAK, m < LOW_MULTIPLIER_THRESHOLD) →
       (∀ m ∈ h, m < HIGH_MULTIPLIER_THRESHOLD) →
       (generate_risk_averse_signal h).2 = true) ∧
    (generate_risk_averse_signal exSignal).2 = true ∧
    low_streak_count exSignal = REQUIRED_LOW_STREAK := by
  refine ⟨fun h hlen hlow hhigh => ?_, ?_, ?_⟩
  · have hnot : ¬ h.length < SAFE_HIGH_STREAK := by omega
    have hc : low_streak_count h = REQUIRED_LOW_STREAK :=
      low_streak_count_all_low h
        (by rw [hlen]; norm_num [REQUIRED_LOW_STREAK, SAFE_HIGH_STREAK]) hlow
    have hready : is_low_streak_ready h = true := by
      simp [is_low_streak_ready, hc]
    have hhit : high_hit_recently h = false := by
      rw [Bool.eq_false_iff]
      intro hcon
      obtain ⟨m, hm, h8⟩ := (high_hit_iff h).mp hcon
      exact absurd h8 (not_le.mpr (hhigh m (lastN_subset h _ hm)))
    simp [generate_risk_averse_signal, hnot, hready, hhit]
  · norm_num [generate_risk_averse_signal, is_low_streak_ready,
      high_hit_recently, low_streak_count, lastN, lowStreakLoop,
      REQUIRED_LOW_STREAK, SAFE_HIGH_STREAK, LOW_MULTIPLIER_THRESHOLD,
      HIGH_MULTIPLIER_THRESHOLD, exSignal]
  · norm_num [low_streak_count, lastN, lowStreakLoop, REQUIRED_LOW_STREAK,
      LOW_MULTIPLIER_THRESHOLD, exSignal]

/-- Witness for C4 at the concrete scenario history. -/
theorem claim4_exact20_signal_witness :
    (exSignal.length = SAFE_HIGH_STREAK ∧
     (∀ m ∈ lastN exSignal REQUIRED_LOW_STREAK, m < LOW_MULTIPLIER_THRESHOLD) ∧
     (∀ m ∈ exSignal, m < HIGH_MULTIPLIER_THRESHOLD)) ∧
    (generate_risk_averse_signal exSignal).2 = true :=
  ⟨⟨by norm_num [exSignal, SAFE_HIGH_STREAK],
    by norm_num [exSignal, lastN, REQUIRED_LOW_STREAK,
        LOW_MULTIPLIER_THRESHOLD, List.forall_mem_cons],
    by norm_num [exSignal, HIGH_MULTIPLIER_THRESHOLD, List.forall_mem_cons]⟩,
   claim4_exact20_signal.1 exSignal
     (by norm_num [exSignal, SAFE_HIGH_STREAK])
     (by norm_num [exSignal, lastN, REQUIRED_LOW_STREAK,
         LOW_MULTIPLIER_THRESHOLD, List.forall_mem_cons])
     (by norm_num [exSignal, HIGH_MULTIPLIER_THRESHOLD, List.forall_mem_cons])⟩

/-- C5: the threshold boundaries are asymmetric: an element exactly equal
to 1.50 stops the low-streak scan without being counted (strict less
than), so a history ending in 1.50 has streak count 0, while an element
exactly equal to 8.00 in the trailing 20 does count as a high hit
(greater or equal). -/
theorem claim5_boundary_asymmetry :
    (∀ (rest : List ℚ) (acc : ℕ),
       lowStreakLoop (LOW_MULTIPLIER_THRESHOLD :: rest) acc = acc) ∧
    (∀ l : List ℚ, SAFE_HIGH_STREAK ≤ l.length →
       low_streak_count (l ++ [LOW_MULTIPLIER_THRESHOLD]) = 0) ∧
    (∀ l : List ℚ, SAFE_HIGH_STREAK ≤ l.length →
       HIGH_MULTIPLIER_THRESHOLD ∈ lastN l SAFE_HIGH_STREAK →
       high_hit_recently l = true) := by
  refine ⟨fun rest acc => lowStreakLoop_head_not_low _ (lt_irrefl _) rest acc,
    fun l hl => ?_, fun l _ hmem => (high_hit_iff l).mpr ⟨_, hmem, le_refl _⟩⟩
  unfold low_streak_count lastN
  rw [List.length_append]
  simp only [List.length_cons, List.length_nil]
  rw [List.drop_append_of_le_length
      (by simp only [REQUIRED_LOW_STREAK, SAFE_HIGH_STREAK] at hl ⊢; omega),
    List.reverse_append]
  simp only [List.reverse_cons, List.reverse_nil, List.nil_append,
    List.cons_append]
  exact lowStreakLoop_head_not_low _ (lt_irrefl _) _ 0

/-- Witness for C5 at the broken-streak history. -/
theorem claim5_boundary_asymmetry_witness :
    SAFE_HIGH_STREAK ≤ exBrokenStreak.length ∧
    low_streak_count (exBrokenStreak ++ [LOW_MULTIPLIER_THRESHOLD]) = 0 :=
  ⟨by norm_num [exBrokenStreak, SAFE_HIGH_STREAK],
   claim5_boundary_asymmetry.2.1 exBrokenStreak
     (by norm_num [exBrokenStreak, SAFE_HIGH_STREAK])⟩

/-- C6: whenever a history of length at least 20 yields isSignal false,
the returned message is the no-signal message listing exactly the failed
conditions: the low-streak reason (with the actual count substituted)
precisely when the streak is not ready, and the high-variance reason
precisely when a high hit occurred, with at least one present. -/
theorem claim6_no_signal_reasons (h : List ℚ)
    (hl : SAFE_HIGH_STREAK ≤ h.length)
    (hs : (generate_risk_averse_signal h).2 = false) :
    (generate_risk_averse_signal h).1 =
      noSignalMessage
        ((if is_low_streak_ready h = false then
            [lowNotReadyReason (low_streak_count h)] else []) ++
         (if high_hit_recently h = true then [highVarianceReason] else [])) ∧
    (is_low_streak_ready h = false ∨ high_hit_recently h = true) := by
  have hnot : ¬ h.length < SAFE_HIGH_STREAK := by omega
  have key : (is_low_streak_ready h && !high_hit_recently h) = false := by
    cases hb : (is_low_streak_ready h && !high_hit_recently h) with
    | false => rfl
    | true =>
      exfalso
      have : (generate_risk_averse_signal h).2 = true := by
        simp [generate_risk_averse_signal, hnot, hb]
      rw [hs] at this
      exact Bool.false_ne_true this
  constructor
  · simp only [generate_risk_averse_signal, if_neg hnot]
    rw [if_neg (by simp [key])]
    simp [Bool.not_eq_true']
  · rcases Bool.and_eq_false_iff.mp key with hlow | hhigh
    · exact Or.inl hlow
    · exact Or.inr (by simpa using hhigh)

/-- Witness for C6 at the broken-streak history. -/
theorem claim6_no_signal_reasons_witness :
    (SAFE_HIGH_STREAK ≤ exBrokenStreak.length ∧
     (generate_risk_averse_signal exBrokenStreak).2 = false) ∧
    ((generate_risk_averse_signal exBrokenStreak).1 =
      noSignalMessage
        ((if is_low_streak_ready exBrokenStreak = false then
            [lowNotReadyReason (low_streak_count exBrokenStreak)] else []) ++
         (if high_hit_recently exBrokenStreak = true then
            [highVarianceReason] else [])) ∧
     (is_low_streak_ready exBrokenStreak = false ∨
      high_hit_recently exBrokenStreak = true)) :=
  ⟨⟨by norm_num [exBrokenStreak, SAFE_HIGH_STREAK],
    by norm_num [generate_risk_averse_signal, is_low_streak_ready,
      high_hit_recently, low_streak_count, lastN, lowStreakLoop,
      REQUIRED_LOW_STREAK, SAFE_HIGH_STREAK, LOW_MULTIPLIER_THRESHOLD,
      HIGH_MULTIPLIER_THRESHOLD, exBrokenStreak]⟩,
   claim6_no_signal_reasons exBrokenStreak
     (by norm_num [exBrokenStreak, SAFE_HIGH_STREAK])
     (by norm_num [generate_risk_averse_signal, is_low_streak_ready,
       high_hit_recently, low_streak_count, lastN, lowStreakLoop,
       REQUIRED_LOW_STREAK, SAFE_HIGH_STREAK, LOW_MULTIPLIER_THRESHOLD,
       HIGH_MULTIPLIER_THRESHOLD, exBrokenStreak])⟩

/-- C7: the evaluator is deterministic and stateless: two calls on
identical input sequences produce identical (message, boolean) outputs. -/
theorem claim7_deterministic (h₁ h₂ : List ℚ) (he : h₁ = h₂) :
    generate_risk_averse_signal h₁ = generate_risk_averse_signal h₂ := by
  rw [he]

/-- Witness for C7 at the concrete scenario history. -/
theorem claim7_deterministic_witness :
    exSignal = exSignal ∧
    generate_risk_averse_signal exSignal =
      generate_risk_averse_signal exSignal :=
  ⟨rfl, claim7_deterministic exSignal exSignal rfl⟩

/-- C8: `get_ai_analysis` always yields a displayable string: with an
absent client it returns the fixed unavailability string for every input
and never consults the external call (the result is independent of the
oracle), and with a present client a raised exception is caught and
converted to the descriptive fallback string while a successful call is
returned verbatim. -/
theorem claim8_ai_fallback :
    (∀ (gc gc' : String → Except String String) (hist : List ℚ) (v : String),
        get_ai_analysis none gc hist v = unavailableMessage ∧
        get_ai_analysis none gc hist v = get_ai_analysis none gc' hist v) ∧
    (∀ (gc : String → Except String String) (hist : List ℚ) (v e : String),
        gc (mkPrompt hist v) = Except.error e →
        get_ai_analysis (some ()) gc hist v = apiErrorMessage e) ∧
    (∀ (gc : String → Except String String) (hist : List ℚ) (v t : String),
        gc (mkPrompt hist v) = Except.ok t →
        get_ai_analysis (some ()) gc hist v = t) := by
  refine ⟨fun gc gc' hist v => ⟨rfl, rfl⟩,
    fun gc hist v e hge => ?_, fun gc hist v t hgt => ?_⟩
  · simp [get_ai_analysis, hge]
  · simp [get_ai_analysis, hgt]

/-- Witness for C8 with an always-failing external call. -/
theorem claim8_ai_fallback_witness :
    (fun _ : String => (Except.error "boom" : Except String String))
        (mkPrompt [] "v") = Except.error "boom" ∧
    get_ai_analysis (some ())
        (fun _ : String => (Except.error "boom" : Except String String))
        [] "v" = apiErrorMessage "boom" :=
  ⟨rfl, claim8_ai_fallback.2.1 _ [] "v" "boom" rfl⟩

/-- C9: for every history of length at least 20 the evaluator depends
only on the trailing 20-element window: evaluating the full history and
evaluating just its last 20 elements give the same message and boolean. -/
theorem claim9_window_only (h : List ℚ) (hl : SAFE_HIGH_STREAK ≤ h.length) :
    generate_risk_averse_signal h =
      generate_risk_averse_signal (lastN h SAFE_HIGH_STREAK) := by
  have h20 : (lastN h SAFE_HIGH_STREAK).length = SAFE_HIGH_STREAK :=
    length_lastN h _ hl
  have e7 : lastN (lastN h SAFE_HIGH_STREAK) REQUIRED_LOW_STREAK =
      lastN h REQUIRED_LOW_STREAK :=
    lastN_lastN h REQUIRED_LOW_STREAK SAFE_HIGH_STREAK
      (by norm_num [REQUIRED_LOW_STREAK, SAFE_HIGH_STREAK]) hl
  have e20 : lastN (lastN h SAFE_HIGH_STREAK) SAFE_HIGH_STREAK =
      lastN h SAFE_HIGH_STREAK :=
    lastN_lastN h SAFE_HIGH_STREAK SAFE_HIGH_STREAK le_rfl hl
  have hc : low_streak_count (lastN h SAFE_HIGH_STREAK) = low_streak_count h := by
    unfold low_streak_count
    rw [e7]
  have hhit : high_hit_recently (lastN h SAFE_HIGH_STREAK) =
      high_hit_recently h := by
    unfold high_hit_recently
    rw [e20]
  have hready : is_low_streak_ready (lastN h SAFE_HIGH_STREAK) =
      is_low_streak_ready h := by
    unfold is_low_streak_ready
    rw [hc]
  have hnot : ¬ h.length < SAFE_HIGH_STREAK := by omega
  unfold generate_risk_averse_signal
  rw [h20, hc, hhit, hready, if_neg hnot, if_neg (lt_irrefl SAFE_HIGH_STREAK)]

/-- Witness for C9 at a 21-element history. -/
theorem claim9_window_only_witness :
    SAFE_HIGH_STREAK ≤ ((9:ℚ) :: exSignal).length ∧
    generate_risk_averse_signal ((9:ℚ) :: exSignal) =
      generate_risk_averse_signal (lastN ((9:ℚ) :: exSignal) SAFE_HIGH_STREAK) :=
  ⟨by norm_num [exSignal, SAFE_HIGH_STREAK],
   claim9_window_only ((9:ℚ) :: exSignal)
     (by norm_num [exSignal, SAFE_HIGH_STREAK])⟩

/-- C10: the evaluator is total over arbitrary rational sequences — every
input produces a (message, boolean) pair — and no positivity validation
is performed: negative entries count toward the low streak like any value
below 1.50, so a history whose last 7 entries are all negative reaches
the full streak of 7. -/
theorem claim10_total_no_validation :
    (∀ h : List ℚ, ∃ (msg : String) (b : Bool),
        generate_risk_averse_signal h = (msg, b)) ∧
    (∀ h : List ℚ, SAFE_HIGH_STREAK ≤ h.length →
        (∀ m ∈ lastN h REQUIRED_LOW_STREAK, m < 0) →
        low_streak_count h = REQUIRED_LOW_STREAK ∧
        is_low_streak_ready h = true) := by
  refine ⟨fun h => ⟨_, _, rfl⟩, fun h hl hneg => ?_⟩
  have hc : low_streak_count h = REQUIRED_LOW_STREAK :=
    low_streak_count_all_low h
      (by simp only [REQUIRED_LOW_STREAK, SAFE_HIGH_STREAK] at hl ⊢; omega)
      (fun m hm =>
        lt_trans (hneg m hm) (by norm_num [LOW_MULTIPLIER_THRESHOLD]))
  exact ⟨hc, by simp [is_low_streak_ready, hc]⟩

/-- Witness for C10 at the all-negative-tail history. -/
theorem claim10_total_no_validation_witness :
    (SAFE_HIGH_STREAK ≤ exNegative.length ∧
     (∀ m ∈ lastN exNegative REQUIRED_LOW_STREAK, m < 0)) ∧
    (low_streak_count exNegative = REQUIRED_LOW_STREAK ∧
     is_low_streak_ready exNegative = true) :=
  ⟨⟨by norm_num [exNegative, SAFE_HIGH_STREAK],
    by norm_num [exNegative, lastN, REQUIRED_LOW_STREAK,
        List.forall_mem_cons]⟩,
   claim10_total_no_validation.2 exNegative
     (by norm_num [exNegative, SAFE_HIGH_STREAK])
     (by norm_num [exNegative, lastN, REQUIRED_LOW_STREAK,
         List.forall_mem_cons])⟩

end CustomSignalApp
